import Mathlib

/-!
Verification development for the AstroGuard asteroid-impact simulator.

The repository under verification ships a TypeScript/React frontend
(`frontend/src`), whose API client, application shell and trajectory
renderers are embedded below, and a simulation backend that the spec
describes (orbit propagation, deflection, impact physics) but whose
source is not part of the checked-in tree; those parts are modelled
from the spec, with every such definition marked in its doc comment.

Numbers are modelled as exact rationals (`ℚ`).  The transcendental
kernel used by the numeric code (`Math.sin`, `Math.cos`, `Math.atan2`,
`Math.sqrt`, `Math.pow`, `Math.log10`, `Math.PI`) is abstracted into a
record of rational-valued operations (`NumOps`), so that every
definition stays computable and the theorems quantify over the kernel.
-/

/-- Points of a trajectory: an `[x, y, z]` triple of JS numbers. -/
abbrev Vec3 : Type := ℚ × ℚ × ℚ

/-- Frontend data model, from `frontend/src/types/index.ts` (`Asteroid`):
numeric fields are `diameter` (km), `velocity` (km/s),
`impact_probability` and `palermo_scale`. -/
structure Asteroid where
  id : String
  name : String
  diameter : ℚ
  velocity : ℚ
  impact_probability : ℚ
  palermo_scale : ℚ

/-- Orbital elements, from `frontend/src/types/index.ts`
(`OrbitalElements`): semi-major axis `a` (m), eccentricity `e`,
inclination `i` (rad), longitude of ascending node `omega`,
argument of periapsis `w`, mean anomaly `M`. -/
structure OrbitalElements where
  a : ℚ
  e : ℚ
  i : ℚ
  omega : ℚ
  w : ℚ
  M : ℚ

/-- Simulation result, from `frontend/src/types/index.ts`
(`SimulationResult`): exactly the eleven fields of the exposed
interface; trajectories are lists of `[x, y, z]` triples. -/
structure SimulationResult where
  success : Bool
  impact_energy_mt : ℚ
  crater_diameter_km : ℚ
  tsunami_risk : Bool
  seismic_magnitude : ℚ
  fireball_radius_km : ℚ
  target_type : String
  original_trajectory : List Vec3
  deflected_trajectory : List Vec3
  miss_distance_km : ℚ
  asteroid_name : String

/-- Simulation request parameters, from `frontend/src/types/index.ts`
(`SimulationParams`): exactly the four parameters of the exposed
interface. -/
structure SimulationParams where
  asteroidId : String
  impactLat : ℚ
  impactLon : ℚ
  mitigationDeltaV : ℚ

/-- The fixed fallback message of `asteroidApi.simulateImpact`. -/
def simFailedMsg : String := "Simulation failed"

/-- The fixed fallback message of `asteroidApi.getAsteroids`. -/
def fetchFailedMsg : String := "Failed to fetch asteroids"

/-- The empty JS string (falsy under `||`). -/
def emptyStr : String := ""

/-- JS `a || b` on an optional string: `b` when `a` is absent or empty
(both are falsy), `a` otherwise.  Embeds the `response.data.error ||
⟨default⟩` idiom of `utils/api.ts`. -/
def jsOrString (a : Option String) (b : String) : String :=
  match a with
  | some s => if s = emptyStr then b else s
  | none => b

/-- The body of a `/api/simulate` HTTP response as the client sees it:
the `SimulationResult` fields (including the `success` flag the client
branches on) plus an optional `error` message. -/
structure SimResponse where
  data : SimulationResult
  error : Option String

/-- Embeds `asteroidApi.simulateImpact` of `utils/api.ts`: the client
posts `params` and receives `resp`; it resolves with `response.data`
when `response.data.success` holds and otherwise throws
`Error(response.data.error || 'Simulation failed')`.  The network
round-trip is external, so the response is an argument. -/
def simulateImpact (_params : SimulationParams) (resp : SimResponse) :
    Except String SimulationResult :=
  if resp.data.success then .ok resp.data
  else .error (jsOrString resp.error simFailedMsg)

/-- A raw JSON field value as the frontend may receive it: a number, a
string, or anything else (null, undefined, boolean, object — values
whose `parseFloat` is `NaN`). -/
inductive JsVal where
  | num (q : ℚ)
  | str (s : String)
  | other
deriving DecidableEq

/-- Embeds the per-field coercion of `asteroidApi.getAsteroids`:
`typeof v === 'number' ? v : parseFloat(v) || 0`.  `pf` stands for JS
`parseFloat`, returning `none` for `NaN`; the `|| 0` step maps both
`NaN` and a parsed `0` to `0`. -/
def coerceNum (pf : String → Option ℚ) (v : JsVal) : ℚ :=
  match v with
  | .num q => q
  | .str s =>
    match pf s with
    | some q => if q = 0 then 0 else q
    | none => 0
  | .other => 0

/-- An element of the `asteroids` array of a `/api/asteroids` response,
before coercion: the four numeric fields may arrive as arbitrary JSON
values. -/
structure RawAsteroid where
  id : String
  name : String
  diameter : JsVal
  velocity : JsVal
  impact_probability : JsVal
  palermo_scale : JsVal

/-- The body of a `/api/asteroids` HTTP response. -/
structure AsteroidsResponse where
  success : Bool
  asteroids : List RawAsteroid
  error : Option String

/-- Embeds the object literal built inside `getAsteroids`'s `map`. -/
def coerceAsteroid (pf : String → Option ℚ) (a : RawAsteroid) : Asteroid :=
  { id := a.id
    name := a.name
    diameter := coerceNum pf a.diameter
    velocity := coerceNum pf a.velocity
    impact_probability := coerceNum pf a.impact_probability
    palermo_scale := coerceNum pf a.palermo_scale }

/-- Embeds `asteroidApi.getAsteroids` of `utils/api.ts`: on a
`success` response, coerce every asteroid's numeric fields; otherwise
throw `Error(response.data.error || 'Failed to fetch asteroids')`. -/
def getAsteroids (pf : String → Option ℚ) (resp : AsteroidsResponse) :
    Except String (List Asteroid) :=
  if resp.success then .ok (resp.asteroids.map (coerceAsteroid pf))
  else .error (jsOrString resp.error fetchFailedMsg)

/-- The string constant `'rock'` used by the mock result in `App.tsx`. -/
def rockStr : String := "rock"

/-- Embeds the hard-coded `mockResult` of `App.handleSimulate` in
`App.tsx`: `success: true`, `impact_energy_mt: 1500`,
`crater_diameter_km: 10.5`, `miss_distance_km: 1000`, and two
100-point trajectories sampled from circles of radius `1e11` and
`1.1e11` in the `z = 0` plane (`cos`/`sin` stand for `Math.cos` /
`Math.sin`; `0.06 = 3/50`, `0.1 = 1/10`). -/
def mockResult (cos sin : ℚ → ℚ) (asteroidId : String) : SimulationResult :=
  { success := true
    impact_energy_mt := 1500
    crater_diameter_km := 10.5
    tsunami_risk := false
    seismic_magnitude := 6.2
    fireball_radius_km := 2.1
    target_type := rockStr
    original_trajectory :=
      (List.range 100).map fun (k : ℕ) =>
        (1e11 * cos ((k : ℚ) * (3 / 50)), 1e11 * sin ((k : ℚ) * (3 / 50)), 0)
    deflected_trajectory :=
      (List.range 100).map fun (k : ℕ) =>
        (1.1e11 * cos ((k : ℚ) * (3 / 50) + 1 / 10),
         1.1e11 * sin ((k : ℚ) * (3 / 50) + 1 / 10), 0)
    miss_distance_km := 1000
    asteroid_name := asteroidId }

/-- Embeds the result-installing logic of `App.handleSimulate` in
`App.tsx`: the awaited `simulateImpact` call either resolves with a
result, which is installed as-is, or throws, in which case the
hard-coded `mockResult` is installed instead. -/
def handleSimulate (cos sin : ℚ → ℚ) (params : SimulationParams)
    (apiCall : Except String SimulationResult) : SimulationResult :=
  match apiCall with
  | .ok r => r
  | .error _ => mockResult cos sin params.asteroidId

/-- Embeds the asteroid-position index of `ThreeScene.draw`
(`ThreeScene.tsx`) and of the `Asteroid` component (`ThreeGlobe.tsx`):
`Math.max(0, Math.min(n - 1, Math.floor(time * (n - 1))))` with
`n = trajectory.length`. -/
def asteroidIndex (t : ℚ) (n : ℕ) : ℤ :=
  max 0 (min ((n : ℤ) - 1) ⌊t * ((n : ℚ) - 1)⌋)

/-- The trajectory point the renderers read at time `t`
(`trajectory[index]`). -/
def asteroidPointAt (traj : List Vec3) (t : ℚ) : Option Vec3 :=
  traj.get? (asteroidIndex t traj.length).toNat

/-- Specification predicate for C10 (stated from the claim's words, to
be compared with `coerceNum`): a number passes through unchanged, a
parseable string becomes its `parseFloat` value, anything else becomes
`0`. -/
def coercesField (pf : String → Option ℚ) (v : JsVal) (out : ℚ) : Prop :=
  (∀ q, v = .num q → out = q) ∧
  (∀ s q, v = .str s → pf s = some q → out = q) ∧
  (∀ s, v = .str s → pf s = none → out = 0) ∧
  (v = .other → out = 0)

/-- A concrete two-point trajectory used to instantiate theorems. -/
def trajEx : List Vec3 := [(0, 0, 0), (1, 0, 0)]

/-- A concrete request used to instantiate theorems. -/
def paramsEx : SimulationParams :=
  { asteroidId := emptyStr, impactLat := 34, impactLon := -118, mitigationDeltaV := 0 }

/-- A concrete simulation result used to instantiate theorems. -/
def resultEx : SimulationResult :=
  { success := false
    impact_energy_mt := 2
    crater_diameter_km := 3
    tsunami_risk := false
    seismic_magnitude := 5
    fireball_radius_km := 1
    target_type := rockStr
    original_trajectory := []
    deflected_trajectory := []
    miss_distance_km := 0
    asteroid_name := emptyStr }

/-- A concrete raw asteroid used to instantiate theorems. -/
def rawEx : RawAsteroid :=
  { id := emptyStr
    name := emptyStr
    diameter := .num 2
    velocity := .str emptyStr
    impact_probability := .other
    palermo_scale := .num 0 }

namespace Engine

/-- Modelled from the spec: the numeric kernel of the backend engine
(absent from the checked-in tree) uses the host math library
(`sin`, `cos`, `atan2`, `sqrt`, power, `log10`) plus the constants π
and the heliocentric gravitational parameter μ; all are abstracted
into rational-valued operations so the engine stays computable and
theorems can quantify over them. -/
structure NumOps where
  sin : ℚ → ℚ
  cos : ℚ → ℚ
  atan2 : ℚ → ℚ → ℚ
  sqrt : ℚ → ℚ
  rpow : ℚ → ℚ → ℚ
  log10 : ℚ → ℚ
  pi : ℚ
  mu : ℚ

/-- Modelled from the spec (§3): target terrain class. -/
inductive TargetType where
  | rock
  | water
deriving DecidableEq

/-- Modelled from the spec (§3): `PhysicalProfile` — diameter (km),
approach velocity (km/s), bulk density (kg/m³). -/
structure PhysicalProfile where
  diameter : ℚ
  velocity : ℚ
  density : ℚ

/-- Modelled from the spec (§3): `ImpactScenario`. -/
structure ImpactScenario where
  profile : PhysicalProfile
  impactLat : ℚ
  impactLon : ℚ
  targetType : TargetType
  deltaV : ℚ
  tDeflect : ℚ

/-- Modelled from the spec (§3): `TrajectorySample` — normalized time
and heliocentric position. -/
structure TrajectorySample where
  t : ℚ
  pos : Vec3
deriving DecidableEq

/-- Modelled from the spec (§3, §4.3): `ImpactEffects`. -/
structure ImpactEffects where
  impact_energy_mt : ℚ
  crater_diameter_km : ℚ
  fireball_radius_km : ℚ
  seismic_magnitude : ℚ
  tsunami_risk : Bool
  target_type : TargetType
deriving DecidableEq

/-- Modelled from the spec (§7): the engine's error taxonomy, as far
as the embedded operations need it. -/
inductive EngineError where
  | validation
  | numeric
  | notFound
deriving DecidableEq

/-- Modelled from the spec (§9): the calculator's explicit
configuration constants. -/
structure CalcConfig where
  craterC : ℚ
  waterFactor : ℚ
  fireballFrac : ℚ
  seismicOffset : ℚ
  tsunamiThreshold : ℚ

/-- Componentwise sum of two vectors. -/
def vadd (u v : Vec3) : Vec3 := (u.1 + v.1, u.2.1 + v.2.1, u.2.2 + v.2.2)

/-- Componentwise difference of two vectors. -/
def vsub (u v : Vec3) : Vec3 := (u.1 - v.1, u.2.1 - v.2.1, u.2.2 - v.2.2)

/-- Scalar multiple of a vector. -/
def smul (c : ℚ) (v : Vec3) : Vec3 := (c * v.1, c * v.2.1, c * v.2.2)

/-- Dot product. -/
def dot (u v : Vec3) : ℚ := u.1 * v.1 + u.2.1 * v.2.1 + u.2.2 * v.2.2

/-- Cross product. -/
def cross (u v : Vec3) : Vec3 :=
  (u.2.1 * v.2.2 - u.2.2 * v.2.1, u.2.2 * v.1 - u.1 * v.2.2, u.1 * v.2.1 - u.2.1 * v.1)

/-- Euclidean norm through the abstract square root. -/
def vnorm (ops : NumOps) (v : Vec3) : ℚ := ops.sqrt (dot v v)

/-- Modelled from the spec (§4.1): one Newton–Raphson step for
Kepler's equation `M = E − e·sin E`. -/
def keplerStep (ops : NumOps) (e M E : ℚ) : ℚ :=
  E - (E - e * ops.sin E - M) / (1 - e * ops.cos E)

/-- Modelled from the spec (§4.1): iterate the Newton step until
`|ΔE| < 1e-8` or the fuel (at most 50 steps) runs out. -/
def keplerIter (ops : NumOps) (e M : ℚ) : ℕ → ℚ → ℚ
  | 0, E => E
  | n + 1, E =>
    let E2 := keplerStep ops e M E
    if |E2 - E| < 1e-8 then E2 else keplerIter ops e M n E2

/-- Modelled from the spec (§4.1): solve Kepler's equation starting
from `E0 = M` with at most 50 iterations. -/
def solveKepler (ops : NumOps) (e M : ℚ) : ℚ := keplerIter ops e M 50 M

/-- Modelled from the spec (§4.1): eccentric anomaly to true anomaly,
`ν = 2·atan2(√(1+e)·sin(E/2), √(1−e)·cos(E/2))`. -/
def trueAnomaly (ops : NumOps) (e E : ℚ) : ℚ :=
  2 * ops.atan2 (ops.sqrt (1 + e) * ops.sin (E / 2)) (ops.sqrt (1 - e) * ops.cos (E / 2))

/-- Rotation about the z-axis. -/
def rotZ (ops : NumOps) (th : ℚ) (v : Vec3) : Vec3 :=
  (ops.cos th * v.1 - ops.sin th * v.2.1, ops.sin th * v.1 + ops.cos th * v.2.1, v.2.2)

/-- Rotation about the x-axis. -/
def rotX (ops : NumOps) (th : ℚ) (v : Vec3) : Vec3 :=
  (v.1, ops.cos th * v.2.1 - ops.sin th * v.2.2, ops.sin th * v.2.1 + ops.cos th * v.2.2)

/-- Modelled from the spec (§4.1): perifocal → ecliptic frame change
via the 3-1-3 rotation sequence using `Ω`, `i`, `ω`. -/
def toEcliptic (ops : NumOps) (el : OrbitalElements) (v : Vec3) : Vec3 :=
  rotZ ops el.omega (rotX ops el.i (rotZ ops el.w v))

/-- Modelled from the spec (§4.1): perifocal-plane position at
eccentric anomaly `E`: radius `r = a(1 − e·cos E)` at true anomaly
`ν`. -/
def perifocalPosition (ops : NumOps) (el : OrbitalElements) (E : ℚ) : Vec3 :=
  let nu := trueAnomaly ops el.e E
  let r := el.a * (1 - el.e * ops.cos E)
  (r * ops.cos nu, r * ops.sin nu, 0)

/-- Modelled from the spec (§4.1): heliocentric position at
normalized time `t`, with mean anomaly `M0 + t·2π`. -/
def positionAt (ops : NumOps) (el : OrbitalElements) (t : ℚ) : Vec3 :=
  let M := el.M + t * (2 * ops.pi)
  toEcliptic ops el (perifocalPosition ops el (solveKepler ops el.e M))

/-- Modelled from the spec (§4.1): the k-th of `N` uniformly spaced
normalized sample times covering `[0, 1]`. -/
def sampleTime (N k : ℕ) : ℚ := (k : ℚ) / ((N : ℚ) - 1)

/-- Modelled from the spec (§4.1): `propagate(elements, sampleCount)`
returns one sample per normalized time over one full period. -/
def propagate (ops : NumOps) (el : OrbitalElements) (N : ℕ) : List TrajectorySample :=
  (List.range N).map fun (k : ℕ) =>
    { t := sampleTime N k, pos := positionAt ops el (sampleTime N k) }

/-- Modelled from the spec (§4.2): velocity at normalized time `t`,
via the analytic derivative of the perifocal position with respect to
true anomaly, rotated like the position. -/
def velocityAt (ops : NumOps) (el : OrbitalElements) (t : ℚ) : Vec3 :=
  let M := el.M + t * (2 * ops.pi)
  let E := solveKepler ops el.e M
  let nu := trueAnomaly ops el.e E
  let p := el.a * (1 - el.e ^ 2)
  let denom := (1 + el.e * ops.cos nu) ^ 2
  toEcliptic ops el (-(p * ops.sin nu) / denom, p * (el.e + ops.cos nu) / denom, 0)

/-- Modelled from the spec (§4.2): standard state → elements
conversion via specific angular momentum, the eccentricity vector and
the energy equation for `a`. -/
def stateToElements (ops : NumOps) (r v : Vec3) : OrbitalElements :=
  let rmag := vnorm ops r
  let vmag := vnorm ops v
  let h := cross r v
  let hmag := vnorm ops h
  let evec := vsub (smul (1 / ops.mu) (cross v h)) (smul (1 / rmag) r)
  let ecc := vnorm ops evec
  let energy := vmag ^ 2 / 2 - ops.mu / rmag
  let inc := ops.atan2 (ops.sqrt (h.1 ^ 2 + h.2.1 ^ 2)) h.2.2
  let node : Vec3 := (-h.2.1, h.1, 0)
  let nuNew := ops.atan2 (dot (cross evec r) h / hmag) (dot evec r)
  let eNew := 2 * ops.atan2 (ops.sqrt (1 - ecc) * ops.sin (nuNew / 2))
      (ops.sqrt (1 + ecc) * ops.cos (nuNew / 2))
  { a := -ops.mu / (2 * energy)
    e := ecc
    i := inc
    omega := ops.atan2 node.2.1 node.1
    w := ops.atan2 (dot (cross node evec) h / hmag) (dot node evec)
    M := eNew - ecc * ops.sin eNew }

/-- One astronomical unit in meters. -/
def astronomicalUnitM : ℚ := 1.495978707e11

/-- Modelled from the spec (§4.2 step 5): Earth's reference position —
a fixed point on a circular 1 AU orbit at the close-approach epoch. -/
def earthRef : Vec3 := (astronomicalUnitM, 0, 0)

/-- Modelled from the spec (§4.2): `deflect(elements, scenario)`.
Invalid `t_deflect` outside `[0, 1]` fails with a validation error; a
zero impulse returns a full copy of the original trajectory with miss
distance 0 (the spec's stated policy); a non-zero impulse perturbs the
velocity at `t_deflect` along the prograde axis, rebuilds elements
from the perturbed state, re-propagates from `t_deflect`, and measures
the miss distance to Earth's reference point in kilometers. -/
def deflect (ops : NumOps) (el : OrbitalElements) (sc : ImpactScenario) :
    Except EngineError (List TrajectorySample × ℚ) :=
  if sc.tDeflect < 0 ∨ 1 < sc.tDeflect then .error .validation
  else
    let orig := propagate ops el 100
    if sc.deltaV = 0 then .ok (orig, 0)
    else
      let r0 := positionAt ops el sc.tDeflect
      let v0 := velocityAt ops el sc.tDeflect
      let v1 := vadd v0 (smul (sc.deltaV / vnorm ops v0) v0)
      let el2 := stateToElements ops r0 v1
      let pre := orig.filter fun s => s.t < sc.tDeflect
      let post := (propagate ops el2 100).filter fun s => sc.tDeflect ≤ s.t
      let miss := vnorm ops (vsub (positionAt ops el2 1) earthRef) / 1000
      .ok (pre ++ post, miss)

/-- Modelled from the spec (§4.3): mass from sphere volume × density,
with the diameter converted from km to meters. -/
def massOf (ops : NumOps) (p : PhysicalProfile) : ℚ :=
  p.density * (4 / 3) * ops.pi * (p.diameter * 1000 / 2) ^ 3

/-- Modelled from the spec (§4.3): kinetic energy in joules, with the
velocity converted from km/s to m/s. -/
def kineticEnergyJ (ops : NumOps) (p : PhysicalProfile) : ℚ :=
  1 / 2 * massOf ops p * (p.velocity * 1000) ^ 2

/-- Modelled from the spec (§4.3): TNT-megaton equivalent of the
kinetic energy (constant 4.184e15 J/Mt). -/
def impactEnergyMt (ops : NumOps) (p : PhysicalProfile) : ℚ :=
  kineticEnergyJ ops p / 4.184e15

/-- Guarded power `x ^ p`: defined for a positive base, `0` for a zero
base with the engine's positive exponents, undefined (the IEEE `NaN`
outcome) for a negative base. -/
def powPos (ops : NumOps) (x p : ℚ) : Option ℚ :=
  if 0 < x then some (ops.rpow x p) else if x = 0 then some 0 else none

/-- Guarded `log10`: defined only for a positive argument (the IEEE
`NaN`/`-Infinity` outcomes are undefined here). -/
def logPos (ops : NumOps) (x : ℚ) : Option ℚ :=
  if 0 < x then some (ops.log10 x) else none

/-- Modelled from the spec (§4.3): `computeEffects(profile,
targetType)`.  Validation first (diameter ≤ 0 or velocity ≤ 0 is a
validation error); crater scaling `C·E^(1/3.4)` (the exponent is
`5/17`) with a multiplicative water correction; fireball a fixed
fraction of the crater; seismic `(2/3)·log10(KE) − offset` clamped at
0; tsunami risk exactly for a water target with energy at or above the
configured threshold.  A transcendental call outside its guarded
domain is a numeric error (the model's rendering of `NaN`/`Inf`). -/
def computeEffects (ops : NumOps) (cfg : CalcConfig) (p : PhysicalProfile)
    (target : TargetType) : Except EngineError ImpactEffects :=
  if p.diameter ≤ 0 ∨ p.velocity ≤ 0 then .error .validation
  else
    match powPos ops (impactEnergyMt ops p) (5 / 17), logPos ops (kineticEnergyJ ops p) with
    | some powE, some lg =>
      let energyMt := impactEnergyMt ops p
      let crater := cfg.craterC * powE * (if target = .water then cfg.waterFactor else 1)
      .ok { impact_energy_mt := energyMt
            crater_diameter_km := crater
            fireball_radius_km := cfg.fireballFrac * crater
            seismic_magnitude := max 0 (2 / 3 * lg - cfg.seismicOffset)
            tsunami_risk := decide (target = .water ∧ cfg.tsunamiThreshold ≤ energyMt)
            target_type := target }
    | _, _ => .error .numeric

/-- Relative-tolerance closeness of two coordinates. -/
def withinRelTol (tol x y : ℚ) : Prop := |x - y| ≤ tol * |y|

/-- A concrete numeric kernel used to instantiate theorems: trig and
logs collapse to 0, the power map is the identity in its base. -/
def zeroOps : NumOps :=
  { sin := fun _ => 0
    cos := fun _ => 0
    atan2 := fun _ _ => 0
    sqrt := fun _ => 0
    rpow := fun x _ => x
    log10 := fun _ => 0
    pi := 3
    mu := 1 }

/-- A concrete valid set of orbital elements. -/
def elEx : OrbitalElements := { a := 1, e := 0, i := 0, omega := 0, w := 0, M := 0 }

/-- A concrete physical profile (1 km, 1 km/s, density 1). -/
def profileEx : PhysicalProfile := { diameter := 1, velocity := 1, density := 1 }

/-- A larger concrete physical profile with the same density. -/
def profileEx2 : PhysicalProfile := { diameter := 2, velocity := 2, density := 1 }

/-- A concrete invalid physical profile (diameter 0). -/
def badProfileEx : PhysicalProfile := { diameter := 0, velocity := 1, density := 1 }

/-- A concrete calculator configuration. -/
def cfgEx : CalcConfig :=
  { craterC := 1, waterFactor := 1 / 2, fireballFrac := 2 / 5, seismicOffset := 4,
    tsunamiThreshold := 1 }

/-- A concrete zero-impulse scenario with `t_deflect = 1/2`. -/
def scenarioEx : ImpactScenario :=
  { profile := profileEx, impactLat := 0, impactLon := 0, targetType := .rock,
    deltaV := 0, tDeflect := 1 / 2 }

/-- The effects `computeEffects zeroOps cfgEx profileEx .rock`
evaluates to. -/
def effEx : ImpactEffects :=
  { impact_energy_mt := 125 / 2092
    crater_diameter_km := 125 / 2092
    fireball_radius_km := 25 / 1046
    seismic_magnitude := 0
    tsunami_risk := false
    target_type := .rock }

end Engine

-- ===================================================================
-- Theorems
-- ===================================================================

/-- Helper: the per-field coercion of `getAsteroids` satisfies the C10
field specification. -/
theorem coerceNum_spec (pf : String → Option ℚ) (v : JsVal) :
    coercesField pf v (coerceNum pf v) := by
  refine ⟨?_, ?_, ?_, ?_⟩
  · rintro q rfl; rfl
  · rintro s q rfl hq
    by_cases hq0 : q = 0 <;> simp [coerceNum, hq, hq0]
  · rintro s rfl hq; simp [coerceNum, hq]
  · rintro rfl; rfl

/-- Helper: zipping a list with itself pairs each element with
itself. -/
theorem zip_self_eq {α : Type} (l : List α) :
    ∀ p ∈ l.zip l, (p : α × α).1 = p.2 := by
  induction l with
  | nil => intro p hp; cases hp
  | cons a tl ih =>
    intro p hp
    rw [List.zip_cons_cons] at hp
    rcases List.mem_cons.mp hp with rfl | hp
    · rfl
    · exact ih _ hp

/-- C2: `simulateImpact` resolves with the response data exactly when
the response carries `success = true`; otherwise it throws the
server's error message, or the fixed `'Simulation failed'` when no
(non-empty) message is present; a failed simulation is never returned
as a value. -/
theorem simulateImpact_success_iff (p : SimulationParams) (resp : SimResponse) :
    (resp.data.success = true → simulateImpact p resp = .ok resp.data) ∧
    (resp.data.success = false →
      simulateImpact p resp = .error (jsOrString resp.error simFailedMsg)) ∧
    (∀ m, resp.error = some m → m ≠ emptyStr → resp.data.success = false →
      simulateImpact p resp = .error m) ∧
    (resp.error = none → resp.data.success = false →
      simulateImpact p resp = .error simFailedMsg) ∧
    (∀ r, simulateImpact p resp = .ok r → r = resp.data ∧ r.success = true) := by
  refine ⟨?_, ?_, ?_, ?_, ?_⟩
  · intro h; simp [simulateImpact, h]
  · intro h; simp [simulateImpact, h]
  · intro m hm hne h; simp [simulateImpact, h, jsOrString, hm, hne]
  · intro hm h; simp [simulateImpact, h, jsOrString, hm]
  · intro r hr
    by_cases h : resp.data.success
    · simp [simulateImpact, h] at hr
      exact ⟨hr.symm, hr ▸ h⟩
    · simp [simulateImpact, h] at hr

/-- C2 witness: a concrete failing response with no error message
throws the fixed message. -/
theorem simulateImpact_success_iff_witness :
    simulateImpact paramsEx ⟨resultEx, none⟩ = .error simFailedMsg :=
  (simulateImpact_success_iff paramsEx ⟨resultEx, none⟩).2.2.2.1 rfl rfl

/-- C3: when the awaited `simulateImpact` call throws, `handleSimulate`
installs the hard-coded mock result: `success = true`,
`impact_energy_mt = 1500`, `crater_diameter_km = 10.5`,
`miss_distance_km = 1000`, and two 100-point trajectories that lie on
circles (of radius `1e11` resp. `1.1e11`) in the `z = 0` plane
whenever the trig kernel satisfies the circle identity — so the UI
shows a fabricated success instead of the failure. -/
theorem handleSimulate_error_installs_mock (cos sin : ℚ → ℚ)
    (params : SimulationParams) (e : String)
    (htrig : ∀ θ : ℚ, cos θ ^ 2 + sin θ ^ 2 = 1) :
    handleSimulate cos sin params (.error e) = mockResult cos sin params.asteroidId ∧
    (handleSimulate cos sin params (.error e)).success = true ∧
    (handleSimulate cos sin params (.error e)).impact_energy_mt = 1500 ∧
    (handleSimulate cos sin params (.error e)).crater_diameter_km = 10.5 ∧
    (handleSimulate cos sin params (.error e)).miss_distance_km = 1000 ∧
    (handleSimulate cos sin params (.error e)).original_trajectory.length = 100 ∧
    (handleSimulate cos sin params (.error e)).deflected_trajectory.length = 100 ∧
    (∀ v ∈ (handleSimulate cos sin params (.error e)).original_trajectory,
      v.1 ^ 2 + v.2.1 ^ 2 = 1e11 ^ 2 ∧ v.2.2 = 0) ∧
    (∀ v ∈ (handleSimulate cos sin params (.error e)).deflected_trajectory,
      v.1 ^ 2 + v.2.1 ^ 2 = 1.1e11 ^ 2 ∧ v.2.2 = 0) := by
  refine ⟨rfl, rfl, rfl, rfl, rfl, ?_, ?_, ?_, ?_⟩
  · simp only [handleSimulate, mockResult]
    rw [List.length_map, List.length_range]
  · simp only [handleSimulate, mockResult]
    rw [List.length_map, List.length_range]
  · intro v hv
    simp only [handleSimulate, mockResult, List.mem_map] at hv
    obtain ⟨k, -, rfl⟩ := hv
    refine ⟨?_, rfl⟩
    have h := htrig ((k : ℚ) * (3 / 50))
    ring_nf
    ring_nf at h
    nlinarith [h]
  · intro v hv
    simp only [handleSimulate, mockResult, List.mem_map] at hv
    obtain ⟨k, -, rfl⟩ := hv
    refine ⟨?_, rfl⟩
    have h := htrig ((k : ℚ) * (3 / 50) + 1 / 10)
    ring_nf
    ring_nf at h
    nlinarith [h]

/-- C3 witness: with a concrete trig kernel satisfying the circle
identity, a concrete thrown error installs the mock result. -/
theorem handleSimulate_error_installs_mock_witness :
    handleSimulate (fun _ => 1) (fun _ => 0) paramsEx (.error simFailedMsg) =
      mockResult (fun _ => 1) (fun _ => 0) paramsEx.asteroidId :=
  (handleSimulate_error_installs_mock (fun _ => 1) (fun _ => 0) paramsEx simFailedMsg
    (fun θ => by norm_num)).1

/-- C8: the exposed simulate interface takes exactly the four
parameters of `SimulationParams` and returns a `SimulationResult`
determined by exactly its eleven fields (trajectories being lists of
`[x, y, z]` triples by the type of `Vec3`). -/
theorem simulate_interface_shape :
    (∀ p : SimulationParams,
      p = ⟨p.asteroidId, p.impactLat, p.impactLon, p.mitigationDeltaV⟩) ∧
    (∀ r : SimulationResult,
      r = ⟨r.success, r.impact_energy_mt, r.crater_diameter_km, r.tsunami_risk,
           r.seismic_magnitude, r.fireball_radius_km, r.target_type,
           r.original_trajectory, r.deflected_trajectory, r.miss_distance_km,
           r.asteroid_name⟩) ∧
    (∀ (p : SimulationParams) (resp : SimResponse) (r : SimulationResult),
      simulateImpact p resp = .ok r →
      r = ⟨r.success, r.impact_energy_mt, r.crater_diameter_km, r.tsunami_risk,
           r.seismic_magnitude, r.fireball_radius_km, r.target_type,
           r.original_trajectory, r.deflected_trajectory, r.miss_distance_km,
           r.asteroid_name⟩) :=
  ⟨fun _ => rfl, fun _ => rfl, fun _ _ _ _ => rfl⟩

/-- C9: for every time `t` (also outside `[0, 1]`) and non-empty
trajectory of length `n`, the renderers' index equals
`min (n - 1) (max 0 ⌊t * (n - 1)⌋)`, lies in `[0, n - 1]`, and the
trajectory access is in bounds. -/
theorem asteroidIndex_clamped (t : ℚ) (traj : List Vec3) (hne : traj ≠ []) :
    asteroidIndex t traj.length =
      min ((traj.length : ℤ) - 1) (max 0 ⌊t * ((traj.length : ℚ) - 1)⌋) ∧
    0 ≤ asteroidIndex t traj.length ∧
    asteroidIndex t traj.length ≤ (traj.length : ℤ) - 1 ∧
    (asteroidIndex t traj.length).toNat < traj.length ∧
    (asteroidPointAt traj t).isSome = true := by
  have hn : 1 ≤ traj.length := List.length_pos.mpr hne
  set x : ℤ := ⌊t * ((traj.length : ℚ) - 1)⌋ with hx
  have h1 : asteroidIndex t traj.length = max 0 (min ((traj.length : ℤ) - 1) x) := rfl
  have hlt : (asteroidIndex t traj.length).toNat < traj.length := by
    rw [h1]; omega
  refine ⟨by rw [h1]; omega, by rw [h1]; omega, by rw [h1]; omega, hlt, ?_⟩
  rw [asteroidPointAt, List.get?_eq_get hlt]
  rfl

/-- C9 witness: a concrete out-of-range time on a concrete two-point
trajectory. -/
theorem asteroidIndex_clamped_witness :
    asteroidIndex (7 / 2) trajEx.length =
      min ((trajEx.length : ℤ) - 1) (max 0 ⌊(7 / 2 : ℚ) * ((trajEx.length : ℚ) - 1)⌋) ∧
    0 ≤ asteroidIndex (7 / 2) trajEx.length ∧
    asteroidIndex (7 / 2) trajEx.length ≤ (trajEx.length : ℤ) - 1 ∧
    (asteroidIndex (7 / 2) trajEx.length).toNat < trajEx.length ∧
    (asteroidPointAt trajEx (7 / 2)).isSome = true :=
  asteroidIndex_clamped (7 / 2) trajEx (by simp [trajEx])

/-- C10: every asteroid returned by `getAsteroids` has its four numeric
fields coerced: numbers pass through, parseable strings become their
`parseFloat` value, and anything else becomes `0`. -/
theorem getAsteroids_coerces (pf : String → Option ℚ) (resp : AsteroidsResponse)
    (out : List Asteroid) (h : getAsteroids pf resp = .ok out) :
    out = resp.asteroids.map (coerceAsteroid pf) ∧
    ∀ raw ∈ resp.asteroids,
      coercesField pf raw.diameter (coerceAsteroid pf raw).diameter ∧
      coercesField pf raw.velocity (coerceAsteroid pf raw).velocity ∧
      coercesField pf raw.impact_probability (coerceAsteroid pf raw).impact_probability ∧
      coercesField pf raw.palermo_scale (coerceAsteroid pf raw).palermo_scale := by
  constructor
  · by_cases hs : resp.success
    · simpa [getAsteroids, hs] using h.symm
    · simp [getAsteroids, hs] at h
  · intro raw _
    exact ⟨coerceNum_spec pf raw.diameter, coerceNum_spec pf raw.velocity,
      coerceNum_spec pf raw.impact_probability, coerceNum_spec pf raw.palermo_scale⟩

/-- C10 witness: a concrete successful response with one raw asteroid
whose fields are a number, an unparseable string and a non-numeric
value. -/
theorem getAsteroids_coerces_witness :
    [coerceAsteroid (fun _ => none) rawEx] =
      ({ success := true, asteroids := [rawEx], error := none } :
        AsteroidsResponse).asteroids.map (coerceAsteroid (fun _ => none)) :=
  (getAsteroids_coerces (fun _ => none)
    { success := true, asteroids := [rawEx], error := none }
    [coerceAsteroid (fun _ => none) rawEx] rfl).1

namespace Engine

/-- Helper: the sample times of a propagated trajectory are the
uniform times over the range. -/
theorem propagate_map_t (ops : NumOps) (el : OrbitalElements) (N : ℕ) :
    (propagate ops el N).map TrajectorySample.t = (List.range N).map (sampleTime N) := by
  unfold propagate
  rw [List.map_map]
  rfl

/-- C4: for valid elements and `sampleCount = N ≥ 2`, `propagate`
returns exactly `N` samples whose normalized times strictly increase
from 0 to 1, with `t = 0` first and `t = 1` last. -/
theorem propagate_samples (ops : NumOps) (el : OrbitalElements) (N : ℕ)
    (hN : 2 ≤ N) (he0 : 0 ≤ el.e) (he1 : el.e < 1) (ha : 0 < el.a) :
    (propagate ops el N).length = N ∧
    ((propagate ops el N).map TrajectorySample.t).Chain' (· < ·) ∧
    ((propagate ops el N).map TrajectorySample.t).head? = some 0 ∧
    ((propagate ops el N).map TrajectorySample.t).getLast? = some 1 := by
  obtain ⟨m, rfl⟩ : ∃ m, N = m + 2 := ⟨N - 2, by omega⟩
  have hden : (0 : ℚ) < ((m + 2 : ℕ) : ℚ) - 1 := by push_cast; linarith
  refine ⟨?_, ?_, ?_, ?_⟩
  · unfold propagate
    rw [List.length_map, List.length_range]
  · rw [propagate_map_t, List.chain'_map, List.chain'_range_succ]
    intro j hj
    unfold sampleTime
    apply div_lt_div_of_pos_right _ hden
    push_cast
    linarith
  · rw [propagate_map_t, List.range_succ_eq_map]
    simp [sampleTime]
  · rw [propagate_map_t, List.range_succ, List.map_append, List.map_cons,
      List.map_nil, List.getLast?_concat]
    unfold sampleTime
    have hcast : ((m + 1 : ℕ) : ℚ) = ((m + 2 : ℕ) : ℚ) - 1 := by push_cast; ring
    rw [hcast, div_self hden.ne']

/-- C4 witness: three samples of a concrete valid orbit. -/
theorem propagate_samples_witness :
    (propagate zeroOps elEx 3).length = 3 :=
  (propagate_samples zeroOps elEx 3 (by norm_num) (by norm_num [elEx])
    (by norm_num [elEx]) (by norm_num [elEx])).1

/-- Helper: exact equality meets any nonnegative relative tolerance. -/
theorem withinRelTol_refl (tol x : ℚ) (h : 0 ≤ tol) : withinRelTol tol x x := by
  unfold withinRelTol
  simp only [sub_self, abs_zero]
  positivity

/-- C1: a scenario with zero deflection impulse and valid elements
yields a deflected trajectory that is a full copy of the original
(hence pointwise within every nonnegative relative tolerance,
including 1e-6) and a miss distance of 0 km. -/
theorem deflect_zero_deltaV (ops : NumOps) (el : OrbitalElements) (sc : ImpactScenario)
    (hdv : sc.deltaV = 0) (ht0 : 0 ≤ sc.tDeflect) (ht1 : sc.tDeflect ≤ 1)
    (he0 : 0 ≤ el.e) (he1 : el.e < 1) (ha : 0 < el.a) :
    deflect ops el sc = .ok (propagate ops el 100, 0) ∧
    ∀ pr ∈ (propagate ops el 100).zip (propagate ops el 100),
      (pr : TrajectorySample × TrajectorySample).1.t = pr.2.t ∧
      withinRelTol 1e-6 pr.1.pos.1 pr.2.pos.1 ∧
      withinRelTol 1e-6 pr.1.pos.2.1 pr.2.pos.2.1 ∧
      withinRelTol 1e-6 pr.1.pos.2.2 pr.2.pos.2.2 := by
  constructor
  · have hcond : ¬(sc.tDeflect < 0 ∨ 1 < sc.tDeflect) := by
      push_neg
      exact ⟨ht0, ht1⟩
    simp [deflect, hcond, hdv]
  · intro pr hpr
    have hq := zip_self_eq _ pr hpr
    refine ⟨by rw [hq], ?_, ?_, ?_⟩ <;> rw [hq] <;>
      exact withinRelTol_refl _ _ (by norm_num)

/-- C1 witness: a concrete zero-impulse scenario on a concrete valid
orbit returns the original 100-sample trajectory and miss distance
0. -/
theorem deflect_zero_deltaV_witness :
    deflect zeroOps elEx scenarioEx = .ok (propagate zeroOps elEx 100, 0) :=
  (deflect_zero_deltaV zeroOps elEx scenarioEx rfl (by norm_num [scenarioEx])
    (by norm_num [scenarioEx]) (by norm_num [elEx]) (by norm_num [elEx])
    (by norm_num [elEx])).1

/-- Helper: the kinetic energy of a physically valid profile is
positive. -/
theorem kineticEnergyJ_pos (ops : NumOps) (p : PhysicalProfile)
    (hd : 0 < p.diameter) (hv : 0 < p.velocity) (hr : 0 < p.density) (hp : 0 < ops.pi) :
    0 < kineticEnergyJ ops p := by
  unfold kineticEnergyJ massOf
  positivity

/-- Helper: the megaton-equivalent energy of a physically valid
profile is positive. -/
theorem impactEnergyMt_pos (ops : NumOps) (p : PhysicalProfile)
    (hd : 0 < p.diameter) (hv : 0 < p.velocity) (hr : 0 < p.density) (hp : 0 < ops.pi) :
    0 < impactEnergyMt ops p :=
  div_pos (kineticEnergyJ_pos ops p hd hv hr hp) (by norm_num)

/-- Helper: on a physically valid accepted input, `computeEffects`
succeeds with explicitly given fields. -/
theorem computeEffects_ok (ops : NumOps) (cfg : CalcConfig) (p : PhysicalProfile)
    (target : TargetType) (hd : 0 < p.diameter) (hv : 0 < p.velocity)
    (hr : 0 < p.density) (hp : 0 < ops.pi) :
    computeEffects ops cfg p target = .ok
      { impact_energy_mt := impactEnergyMt ops p
        crater_diameter_km := cfg.craterC * ops.rpow (impactEnergyMt ops p) (5 / 17) *
          (if target = .water then cfg.waterFactor else 1)
        fireball_radius_km := cfg.fireballFrac *
          (cfg.craterC * ops.rpow (impactEnergyMt ops p) (5 / 17) *
            (if target = .water then cfg.waterFactor else 1))
        seismic_magnitude := max 0 (2 / 3 * ops.log10 (kineticEnergyJ ops p) - cfg.seismicOffset)
        tsunami_risk := decide (target = .water ∧ cfg.tsunamiThreshold ≤ impactEnergyMt ops p)
        target_type := target } := by
  have hK := kineticEnergyJ_pos ops p hd hv hr hp
  have hE := impactEnergyMt_pos ops p hd hv hr hp
  have hcond : ¬(p.diameter ≤ 0 ∨ p.velocity ≤ 0) := by
    push_neg
    exact ⟨hd, hv⟩
  simp [computeEffects, powPos, logPos, hcond, hE, hK]

/-- C5: diameter ≤ 0 or velocity ≤ 0 fails with a validation error
before any computation, and every accepted physically valid input
produces a defined result — no guarded transcendental is ever applied
outside its domain, the model's rendering of NaN/Infinity freedom. -/
theorem computeEffects_validation_and_defined (ops : NumOps) (cfg : CalcConfig)
    (p : PhysicalProfile) (target : TargetType) :
    (p.diameter ≤ 0 ∨ p.velocity ≤ 0 →
      computeEffects ops cfg p target = .error .validation) ∧
    (0 < p.diameter → 0 < p.velocity → 0 < p.density → 0 < ops.pi →
      ∃ eff, computeEffects ops cfg p target = .ok eff) := by
  constructor
  · intro h
    unfold computeEffects
    rw [if_pos h]
  · intro hd hv hr hp
    exact ⟨_, computeEffects_ok ops cfg p target hd hv hr hp⟩

/-- C5 witness: a zero diameter is rejected with a validation
error. -/
theorem computeEffects_validation_witness :
    computeEffects zeroOps cfgEx badProfileEx .rock = .error .validation :=
  (computeEffects_validation_and_defined zeroOps cfgEx badProfileEx .rock).1
    (Or.inl (by norm_num [badProfileEx]))

/-- C6: in every successful result, tsunami risk holds exactly for a
water target whose megaton energy reaches the configured threshold;
for a rock target it is always false. -/
theorem computeEffects_tsunami_iff (ops : NumOps) (cfg : CalcConfig)
    (p : PhysicalProfile) (target : TargetType) (eff : ImpactEffects)
    (h : computeEffects ops cfg p target = .ok eff) :
    (eff.tsunami_risk = true ↔
      target = .water ∧ cfg.tsunamiThreshold ≤ eff.impact_energy_mt) ∧
    (target = .rock → eff.tsunami_risk = false) := by
  unfold computeEffects at h
  by_cases hval : p.diameter ≤ 0 ∨ p.velocity ≤ 0
  · rw [if_pos hval] at h
    exact absurd h (by simp)
  · rw [if_neg hval] at h
    rcases hp : powPos ops (impactEnergyMt ops p) (5 / 17) with _ | powE
    · rw [hp] at h
      simp at h
    · rcases hl : logPos ops (kineticEnergyJ ops p) with _ | lg
      · rw [hp, hl] at h
        simp at h
      · rw [hp, hl] at h
        injection h with h1
        subst h1
        constructor
        · simp [decide_eq_true_iff]
        · rintro rfl
          simp

/-- C6 witness: a concrete rock-target run has no tsunami risk. -/
theorem computeEffects_tsunami_iff_witness :
    (effEx.tsunami_risk = true ↔
      TargetType.rock = TargetType.water ∧ cfgEx.tsunamiThreshold ≤ effEx.impact_energy_mt) ∧
    (TargetType.rock = TargetType.rock → effEx.tsunami_risk = false) :=
  computeEffects_tsunami_iff zeroOps cfgEx profileEx .rock effEx (by
    rw [computeEffects_ok zeroOps cfgEx profileEx .rock (by norm_num [profileEx])
      (by norm_num [profileEx]) (by norm_num [profileEx]) (by norm_num [zeroOps])]
    norm_num [effEx, impactEnergyMt, kineticEnergyJ, massOf, profileEx, cfgEx, zeroOps]
    decide)

/-- Helper: kinetic energy is monotone in diameter and velocity,
density held fixed. -/
theorem kineticEnergyJ_mono (ops : NumOps) (p1 p2 : PhysicalProfile)
    (hrho : p1.density = p2.density) (hd1 : 0 < p1.diameter) (hdle : p1.diameter ≤ p2.diameter)
    (hv1 : 0 < p1.velocity) (hvle : p1.velocity ≤ p2.velocity)
    (hr1 : 0 < p1.density) (hp : 0 < ops.pi) :
    kineticEnergyJ ops p1 ≤ kineticEnergyJ ops p2 := by
  have hr2 : 0 < p2.density := hrho ▸ hr1
  have hd2 : 0 < p2.diameter := lt_of_lt_of_le hd1 hdle
  have hv2 : 0 < p2.velocity := lt_of_lt_of_le hv1 hvle
  unfold kineticEnergyJ massOf
  rw [hrho]
  gcongr

/-- Helper: the megaton energy is monotone in diameter and velocity,
density held fixed. -/
theorem impactEnergyMt_mono (ops : NumOps) (p1 p2 : PhysicalProfile)
    (hrho : p1.density = p2.density) (hd1 : 0 < p1.diameter) (hdle : p1.diameter ≤ p2.diameter)
    (hv1 : 0 < p1.velocity) (hvle : p1.velocity ≤ p2.velocity)
    (hr1 : 0 < p1.density) (hp : 0 < ops.pi) :
    impactEnergyMt ops p1 ≤ impactEnergyMt ops p2 := by
  unfold impactEnergyMt
  have := kineticEnergyJ_mono ops p1 p2 hrho hd1 hdle hv1 hvle hr1 hp
  gcongr

/-- C7: holding density (and target) fixed, enlarging the diameter and
the velocity never decreases the megaton energy, the crater diameter
or the fireball radius, for any monotone power kernel and nonnegative
calibration constants. -/
theorem computeEffects_monotone (ops : NumOps) (cfg : CalcConfig)
    (p1 p2 : PhysicalProfile) (target : TargetType)
    (hrho : p1.density = p2.density)
    (hd1 : 0 < p1.diameter) (hdle : p1.diameter ≤ p2.diameter)
    (hv1 : 0 < p1.velocity) (hvle : p1.velocity ≤ p2.velocity)
    (hr1 : 0 < p1.density) (hp : 0 < ops.pi)
    (hC : 0 ≤ cfg.craterC) (hW : 0 ≤ cfg.waterFactor) (hF : 0 ≤ cfg.fireballFrac)
    (hmono : ∀ x y : ℚ, 0 < x → x ≤ y → ops.rpow x (5 / 17) ≤ ops.rpow y (5 / 17)) :
    ∃ e1 e2,
      computeEffects ops cfg p1 target = .ok e1 ∧
      computeEffects ops cfg p2 target = .ok e2 ∧
      e1.impact_energy_mt ≤ e2.impact_energy_mt ∧
      e1.crater_diameter_km ≤ e2.crater_diameter_km ∧
      e1.fireball_radius_km ≤ e2.fireball_radius_km := by
  have hd2 : 0 < p2.diameter := lt_of_lt_of_le hd1 hdle
  have hv2 : 0 < p2.velocity := lt_of_lt_of_le hv1 hvle
  have hr2 : 0 < p2.density := hrho ▸ hr1
  have hE1 := impactEnergyMt_pos ops p1 hd1 hv1 hr1 hp
  have hEmono := impactEnergyMt_mono ops p1 p2 hrho hd1 hdle hv1 hvle hr1 hp
  have hpow : ops.rpow (impactEnergyMt ops p1) (5 / 17) ≤
      ops.rpow (impactEnergyMt ops p2) (5 / 17) := hmono _ _ hE1 hEmono
  have hfac : 0 ≤ (if target = .water then cfg.waterFactor else 1) := by
    split
    · exact hW
    · norm_num
  have hcrater : cfg.craterC * ops.rpow (impactEnergyMt ops p1) (5 / 17) *
      (if target = .water then cfg.waterFactor else 1) ≤
      cfg.craterC * ops.rpow (impactEnergyMt ops p2) (5 / 17) *
      (if target = .water then cfg.waterFactor else 1) :=
    mul_le_mul_of_nonneg_right (mul_le_mul_of_nonneg_left hpow hC) hfac
  refine ⟨_, _, computeEffects_ok ops cfg p1 target hd1 hv1 hr1 hp,
    computeEffects_ok ops cfg p2 target hd2 hv2 hr2 hp, ?_, ?_, ?_⟩
  · exact hEmono
  · exact hcrater
  · exact mul_le_mul_of_nonneg_left hcrater hF

/-- C7 witness: doubling diameter and velocity at fixed density, with
a concrete monotone kernel and concrete nonnegative constants. -/
theorem computeEffects_monotone_witness :
    ∃ e1 e2,
      computeEffects zeroOps cfgEx profileEx .rock = .ok e1 ∧
      computeEffects zeroOps cfgEx profileEx2 .rock = .ok e2 ∧
      e1.impact_energy_mt ≤ e2.impact_energy_mt ∧
      e1.crater_diameter_km ≤ e2.crater_diameter_km ∧
      e1.fireball_radius_km ≤ e2.fireball_radius_km :=
  computeEffects_monotone zeroOps cfgEx profileEx profileEx2 .rock rfl
    (by norm_num [profileEx]) (by norm_num [profileEx, profileEx2])
    (by norm_num [profileEx]) (by norm_num [profileEx, profileEx2])
    (by norm_num [profileEx]) (by norm_num [zeroOps])
    (by norm_num [cfgEx]) (by norm_num [cfgEx]) (by norm_num [cfgEx])
    (fun x y _ hxy => by simpa [zeroOps] using hxy)

end Engine
